import Mathlib

/-!
Shallow embedding of the Px promise-combinator library (src/px.js).

The library layers combinators over the native JavaScript Promise
primitive.  All producers exercised by the claims settle synchronously,
so a settled promise outcome is modelled by the inductive `Settle`:
`success v` for a fulfilled promise and `failure e` for a rejected one.
Producer functions may carry side effects (the claims count invocations),
so a producer is modelled as a state transformer `σ → σ × Settle ε α`:
invoking it threads the state and yields the settlement it produces.
The native `then` with handler functions that return outcomes
(thenable flattening included) is `Settle.thenBoth` / `Settle.thenF`.
-/

namespace Px

/-- Outcome of a settled promise: fulfilled with a value or rejected with an error. -/
inductive Settle (ε α : Type) where
  | success (v : α)
  | failure (e : ε)
deriving DecidableEq, Repr

/-- Native `promise.then(res, rej)` on a settled promise: the matching handler
runs and its returned outcome (thenables flattened) becomes the outcome of the
derived promise. -/
def Settle.thenBoth (p : Settle ε α) (res : α → Settle ε' β) (rej : ε → Settle ε' β) :
    Settle ε' β :=
  match p with
  | .success v => res v
  | .failure e => rej e

/-- Native `promise.then(res)` with only a fulfillment handler: a rejection
passes through unchanged. -/
def Settle.thenF (p : Settle ε α) (res : α → Settle ε β) : Settle ε β :=
  match p with
  | .success v => res v
  | .failure e => .failure e

/-- Native `promise.catch(rej)` on a settled promise: a fulfillment passes
through unchanged, a rejection runs the handler. -/
def Settle.catchR (p : Settle ε α) (rej : ε → Settle ε α) : Settle ε α :=
  match p with
  | .success v => .success v
  | .failure e => rej e

/-- Embedding of `Promise.prototype.finally` (the polyfill at src/px.js:477):
`this.then(res => Promise.resolve(onFinally()).then(() => res),
           err => Promise.resolve(onFinally()).then(() => { throw err; }))`.
The finalizer `onFinally` is effectful (state `σ`) and its call yields a
`Settle ε β`: `success b` when it returns normally (a future-like return is
already awaited by `Promise.resolve` adoption), `failure e` when it throws or
its awaited future-like result rejects. -/
def Promise.finallyPoly (p : Settle ε α) (onFinally : σ → σ × Settle ε β) (s : σ) :
    σ × Settle ε α :=
  match p with
  | .success v =>
    let (s', r) := onFinally s
    (s', match r with
         | .success _ => .success v
         | .failure e => .failure e)
  | .failure err =>
    let (s', r) := onFinally s
    (s', match r with
         | .success _ => .failure err
         | .failure e => .failure e)

/-- Embedding of the `DeferredPromise` class (src/px.js:79): it stores exactly
one attribute, the supplier (Producer).  The supplier is an effectful producer
that, when instantiated by `new Promise(this._supplier)`, threads the state and
settles the fresh underlying promise. -/
structure DeferredPromise (σ ε α : Type) where
  _supplier : σ → σ × Settle ε α

/-- Embedding of `DeferredPromise.resolve` (src/px.js:91):
`new DeferredPromise(res => res(value))`. -/
def DeferredPromise.resolve (value : α) : DeferredPromise σ ε α :=
  ⟨fun s => (s, .success value)⟩

/-- Embedding of `DeferredPromise.reject` (src/px.js:102):
`new DeferredPromise((res, rej) => rej(value))`. -/
def DeferredPromise.reject (value : ε) : DeferredPromise σ ε α :=
  ⟨fun s => (s, .failure value)⟩

/-- Embedding of `DeferredPromise.fromCallable` (src/px.js:115): the executor
is called once, inside `fromCallable` itself, under a try/catch; a caught throw
yields `DeferredPromise.reject(e)` and a normal return yields
`DeferredPromise.resolve(result)`.  The executor is effectful and either
returns a value (`Except.ok`) or throws (`Except.error`). -/
def DeferredPromise.fromCallable (executor : σ → σ × Except ε α) (s : σ) :
    σ × DeferredPromise σ ε α :=
  match executor s with
  | (s', .error e) => (s', DeferredPromise.reject e)
  | (s', .ok result) => (s', DeferredPromise.resolve result)

/-- Embedding of `DeferredPromise.prototype.then` (src/px.js:130):
`new Promise(this._supplier).then(res, rej)` — instantiates the supplier on the
current state, then attaches both handlers to the fresh promise. -/
def DeferredPromise.thenAttach (d : DeferredPromise σ ε α)
    (res : α → Settle ε' β) (rej : ε → Settle ε' β) (s : σ) : σ × Settle ε' β :=
  let (s', o) := d._supplier s
  (s', o.thenBoth res rej)

/-- Embedding of `DeferredPromise.prototype.catch` (src/px.js:139):
`new Promise(this._supplier).catch(rej)`. -/
def DeferredPromise.catchAttach (d : DeferredPromise σ ε α)
    (rej : ε → Settle ε α) (s : σ) : σ × Settle ε α :=
  let (s', o) := d._supplier s
  (s', o.catchR rej)

/-- Embedding of `DeferredPromise.prototype.finally` (src/px.js:150):
`new Promise(this._supplier).finally(fin)`. -/
def DeferredPromise.finallyAttach (d : DeferredPromise σ ε α)
    (fin : σ → σ × Settle ε β) (s : σ) : σ × Settle ε α :=
  let (s', o) := d._supplier s
  Promise.finallyPoly o fin s'

/-- Embedding of `DeferredPromise.prototype.toPromise` (src/px.js:206):
`new Promise(this._supplier)` — one instantiation of the supplier. -/
def DeferredPromise.toPromise (d : DeferredPromise σ ε α) (s : σ) : σ × Settle ε α :=
  d._supplier s

/-- Instrumentation used to observe supplier re-invocation: wraps a
DeferredPromise so that every instantiation of the supplier additionally
increments a counter carried alongside the state. -/
def DeferredPromise.counted (d : DeferredPromise σ ε α) : DeferredPromise (σ × Nat) ε α :=
  ⟨fun sn =>
    let (s', o) := d._supplier sn.1
    ((s', sn.2 + 1), o)⟩

/-- Embedding of the no-predicate branch of `DeferredPromise.prototype.retry`
(src/px.js:177): `resub = () => new Promise(supplier).then(x => x, () => resub())`.
The recursion has no a-priori bound (a supplier that always fails loops
forever), so it is indexed by fuel: `none` means the returned promise has not
settled within `fuel` instantiations of the supplier, `some (s', out)` means it
settled with outcome `out` leaving producer state `s'`. -/
def DeferredPromise.retryNoPred (supplier : σ → σ × Settle ε α) :
    Nat → σ → Option (σ × Settle ε α)
  | 0, _ => none
  | fuel + 1, s =>
    match supplier s with
    | (s', .success v) => some (s', .success v)
    | (s', .failure _) => DeferredPromise.retryNoPred supplier fuel s'

/-- Embedding of the predicate branch of `DeferredPromise.prototype.retry`
(src/px.js:168):
`let tries = 0; resub = () => new Promise(supplier).then(x => x,
  x => fn(++tries, x) ? resub() : Promise.reject(x))`.
`tries` is the pre-increment counter, so the k-th failure calls
`fn` with `tries + 1`.  Fuel-indexed exactly as `retryNoPred`. -/
def DeferredPromise.retryPred (supplier : σ → σ × Settle ε α) (fn : Nat → ε → Bool) :
    Nat → Nat → σ → Option (σ × Settle ε α)
  | 0, _, _ => none
  | fuel + 1, tries, s =>
    match supplier s with
    | (s', .success v) => some (s', .success v)
    | (s', .failure e) =>
      if fn (tries + 1) e then DeferredPromise.retryPred supplier fn fuel (tries + 1) s'
      else some (s', .failure e)

/-- Embedding of `DeferredPromise.prototype.retry` (src/px.js:166): dispatches
on whether a predicate function was passed (the typeof check on `fn`), with
`tries` starting at 0. -/
def DeferredPromise.retry (d : DeferredPromise σ ε α) (fn : Option (Nat → ε → Bool))
    (fuel : Nat) (s : σ) : Option (σ × Settle ε α) :=
  match fn with
  | some f => DeferredPromise.retryPred d._supplier f fuel 0 s
  | none => DeferredPromise.retryNoPred d._supplier fuel s

/-- Canonical attempt-indexed supplier: the state counts instantiations so far
and the k-th instantiation (0-based) settles with `p k`.  This realises a
producer closure whose behaviour varies across re-instantiations. -/
def attemptSupplier (p : Nat → Settle ε α) : Nat → Nat × Settle ε α :=
  fun n => (n + 1, p n)

/-- Embedding of `Promise.prototype.contains` (src/px.js:314): with a callable
bipredicate, `this.then(x => bipredicate(x, value))`; otherwise
`this.then(x => x === value)` (strict equality, modelled by decidable
equality on a fixed value type). -/
def Promise.contains [DecidableEq α] (p : Settle ε α) (value : α)
    (bipredicate : Option (α → α → Bool)) : Settle ε Bool :=
  match bipredicate with
  | some f => p.thenF (fun x => .success (f x value))
  | none => p.thenF (fun x => .success (decide (x = value)))

/-- Embedding of `Promise.all([a, b])` for two already-settled promises: if
`a` is rejected its rejection wins (its handler is attached first and fires
first); otherwise a rejection of `b` wins; otherwise fulfill with the pair. -/
def Promise.all2 (a : Settle ε α) (b : Settle ε β) : Settle ε (α × β) :=
  match a with
  | .failure e => .failure e
  | .success va =>
    match b with
    | .failure e => .failure e
    | .success vb => .success (va, vb)

/-- Embedding of `Promise.compare` (src/px.js:360):
`Promise.all([a, b]).then(x => comparator(x[0], x[1]))`. -/
def Promise.compare (a : Settle ε α) (b : Settle ε β) (comparator : α → β → γ) :
    Settle ε γ :=
  (Promise.all2 a b).thenF (fun x => .success (comparator x.1 x.2))

/-- Embedding of `Promise.equals` (src/px.js:379):
`Promise.compare(a, b, (x, y) => x === y)`. -/
def Promise.equals [DecidableEq α] (a b : Settle ε α) : Settle ε Bool :=
  Promise.compare a b (fun x y => decide (x = y))

/-- Message of the error constructed at src/px.js:463. -/
def timeoutMessage : String := "Promise TimeoutException"

/-- Description of a source promise in the timed model: `none` if it never
settles, `some (t, out)` if it settles at time `t` with outcome `out`. -/
def TimedSource (ε α : Type) : Type := Option (Nat × Settle ε α)

/-- State of the `success` flag of `Promise.prototype.timeout` (src/px.js:456)
when the timer fires at time `amount`: the observer
`this.then(() => { success = true; })` has set it exactly when the source
fulfilled strictly before the timer callback runs; the rejection branch of the
source never sets it. -/
def timeoutFlag (source : TimedSource ε α) (amount : Nat) : Bool :=
  match source with
  | some (t, .success _) => decide (t < amount)
  | _ => false

/-- Embedding of `Promise.prototype.timeout` (src/px.js:454): the returned
promise settles when the single `setTimeout` callback runs, at time `amount`;
the callback calls `res(this)` — the source promise reference itself — if the
`success` flag is set, else it rejects with a fresh Error carrying the fixed
timeout message.
The result pairs the settlement time with the outcome; the fulfillment value
is the source reference (modelled by the source description). -/
def Promise.timeout (source : TimedSource ε α) (amount : Nat) :
    Nat × Settle String (TimedSource ε α) :=
  (amount,
    if timeoutFlag source amount then .success source
    else .failure timeoutMessage)

/-- One call made to the settlement triggers captured by a `PublishedPromise`:
`resolve(value)` forwards to the captured `res`, `reject(value)` to the
captured `rej`. -/
inductive SettleAction (ε α : Type) where
  | resolveA (v : α)
  | rejectA (e : ε)
deriving DecidableEq, Repr

/-- The at-most-once settlement cell of the single underlying native promise:
a trigger call on an already-settled promise is a no-op, the first trigger
call on an unsettled promise settles it. -/
def applyAction (cell : Option (Settle ε α)) (a : SettleAction ε α) :
    Option (Settle ε α) :=
  match cell with
  | some st => some st
  | none =>
    match a with
    | .resolveA v => some (.success v)
    | .rejectA e => some (.failure e)

/-- Result of running a sequence of trigger calls against an initially
unsettled promise: the first call wins, the rest are no-ops. -/
def runActions (acts : List (SettleAction ε α)) : Option (Settle ε α) :=
  acts.foldl applyAction none

/-- Embedding of the `PublishedPromise` class (src/px.js:218): it holds the
single underlying promise, whose settlement cell starts unsettled and is
driven by trigger calls. -/
structure PublishedPromise (ε α : Type) where
  _promise : Option (Settle ε α)

/-- Embedding of the `PublishedPromise` constructor (src/px.js:219): the
triggers are captured and, if a producer function was supplied, it runs
immediately; the trigger calls the producer makes (in order) drive the cell
before any external call can. -/
def PublishedPromise.construct (producerCalls : List (SettleAction ε α)) :
    PublishedPromise ε α :=
  ⟨runActions producerCalls⟩

/-- Embedding of `PublishedPromise.prototype.resolve` (src/px.js:237):
forwards to the captured resolve trigger. -/
def PublishedPromise.resolve (p : PublishedPromise ε α) (value : α) :
    PublishedPromise ε α :=
  ⟨applyAction p._promise (.resolveA value)⟩

/-- Embedding of `PublishedPromise.prototype.reject` (src/px.js:248):
forwards to the captured reject trigger. -/
def PublishedPromise.reject (p : PublishedPromise ε α) (value : ε) :
    PublishedPromise ε α :=
  ⟨applyAction p._promise (.rejectA value)⟩

/-- Embedding of `PublishedPromise.prototype.then` (src/px.js:257): delegates
to the one underlying promise; a continuation attached to it is delivered the
settled outcome exactly once (at-least-once delivery, by the primitive, of the
at-most-once settlement), so the delivery to the handlers is determined by the
cell. -/
def PublishedPromise.thenAttach (p : PublishedPromise ε α)
    (res : α → Settle ε' β) (rej : ε → Settle ε' β) : Option (Settle ε' β) :=
  p._promise.map (fun o => o.thenBoth res rej)

/-- Embedding of `Promise.fromCallableDeferred` (src/px.js:530): it just calls
`DeferredPromise.fromCallable(executor)`. -/
def Promise.fromCallableDeferred (executor : σ → σ × Except ε α) (s : σ) :
    σ × DeferredPromise σ ε α :=
  DeferredPromise.fromCallable executor s

/-- Counting executor used to observe when `fromCallable` runs its argument:
each invocation increments the state and returns 42 normally. -/
def countingOk : Nat → Nat × Except Nat Nat :=
  fun n => (n + 1, Except.ok 42)

/-- Trivial fulfillment handler forwarding the value, `x => x`. -/
def idRes : Nat → Settle Nat Nat := fun v => Settle.success v

/-- Trivial rejection handler re-raising the error. -/
def idRej : Nat → Settle Nat Nat := fun e => Settle.failure e

end Px

namespace Px

/-- A settled cell absorbs every further trigger call. -/
theorem foldl_applyAction_settled (st : Settle ε α) (acts : List (SettleAction ε α)) :
    acts.foldl applyAction (some st) = some st := by
  induction acts with
  | nil => rfl
  | cons a acts ih => simpa [applyAction] using ih

/-- Claim C1: the claim states that `DeferredPromise.fromCallable(fn)` stores a
Producer that invokes `fn()` at attachment time, once per attachment, and not
eagerly at construction.  The code invokes `fn` once inside `fromCallable`
itself: with a counting executor, the count is already 1 right after
construction (not 0), and is still 1 after two attachments (not 2). -/
theorem fromCallable_eager_counterexample :
    (DeferredPromise.fromCallable countingOk 0).1 = 1 ∧
    ((DeferredPromise.fromCallable countingOk 0).2.thenAttach idRes idRej
      ((DeferredPromise.fromCallable countingOk 0).2.thenAttach idRes idRej
        (DeferredPromise.fromCallable countingOk 0).1).1).1 = 1 ∧
    ¬ (DeferredPromise.fromCallable countingOk 0).1 = 0 ∧
    ¬ ((DeferredPromise.fromCallable countingOk 0).2.thenAttach idRes idRej
      ((DeferredPromise.fromCallable countingOk 0).2.thenAttach idRes idRej
        (DeferredPromise.fromCallable countingOk 0).1).1).1 = 2 := by
  decide

/-- Claim C1 (amended): `fromCallable` (and `Promise.fromCallableDeferred`,
which is the same function) invokes the executor eagerly, exactly once, at
construction time; the stored Producer replays the captured outcome at every
attachment without re-invoking the executor — a normal return settles success
with the returned value and a thrown exception settles failure with the caught
exception. -/
theorem fromCallable_spec :
    ∀ (σ ε α : Type) (executor : σ → σ × Except ε α) (s : σ),
      Promise.fromCallableDeferred executor s = DeferredPromise.fromCallable executor s ∧
      (DeferredPromise.fromCallable executor s).1 = (executor s).1 ∧
      ∀ s₀ : σ, (DeferredPromise.fromCallable executor s).2.toPromise s₀ =
        (s₀, match (executor s).2 with
             | .ok v => Settle.success v
             | .error e => Settle.failure e) := by
  intro σ ε α executor s
  refine ⟨rfl, ?_, ?_⟩ <;>
  · cases h : executor s with
    | mk s' r =>
      cases r <;>
        simp [DeferredPromise.fromCallable, DeferredPromise.resolve,
          DeferredPromise.reject, DeferredPromise.toPromise, h]

/-- One unfolding step of the no-predicate retry loop. -/
theorem retryNoPred_succ (supplier : σ → σ × Settle ε α) (fuel : Nat) (s : σ) :
    DeferredPromise.retryNoPred supplier (fuel + 1) s =
      match supplier s with
      | (s', .success v) => some (s', .success v)
      | (s', .failure _) => DeferredPromise.retryNoPred supplier fuel s' := rfl

/-- One unfolding step of the predicate retry loop. -/
theorem retryPred_succ (supplier : σ → σ × Settle ε α) (fn : Nat → ε → Bool)
    (fuel tries : Nat) (s : σ) :
    DeferredPromise.retryPred supplier fn (fuel + 1) tries s =
      match supplier s with
      | (s', .success v) => some (s', .success v)
      | (s', .failure e) =>
        if fn (tries + 1) e then DeferredPromise.retryPred supplier fn fuel (tries + 1) s'
        else some (s', .failure e) := rfl

/-- Step of the predicate retry loop when the instantiation succeeds. -/
theorem retryPred_success_step (supplier : σ → σ × Settle ε α) (fn : Nat → ε → Bool)
    (fuel tries : Nat) (s s2 : σ) (w : α) (hs : supplier s = (s2, .success w)) :
    DeferredPromise.retryPred supplier fn (fuel + 1) tries s = some (s2, .success w) := by
  rw [retryPred_succ, hs]

/-- Step of the predicate retry loop when the instantiation fails: the
predicate is consulted with the incremented attempt counter. -/
theorem retryPred_failure_step (supplier : σ → σ × Settle ε α) (fn : Nat → ε → Bool)
    (fuel tries : Nat) (s s2 : σ) (e2 : ε) (hs : supplier s = (s2, .failure e2)) :
    DeferredPromise.retryPred supplier fn (fuel + 1) tries s =
      (if fn (tries + 1) e2 then DeferredPromise.retryPred supplier fn fuel (tries + 1) s2
       else some (s2, .failure e2)) := by
  rw [retryPred_succ, hs]

/-- Claim C3: for a Producer that fails on its first two instantiations and
succeeds with `v` on the third, `retry()` with no predicate settles success
with `v` after exactly 3 instantiations (final attempt counter 3); and with no
predicate a settled retry result is always a success — the returned promise
never settles as failed. -/
theorem retry_no_predicate (p : Nat → Settle ε α) (v : α) (e0 e1 : ε)
    (h0 : p 0 = .failure e0) (h1 : p 1 = .failure e1) (h2 : p 2 = .success v) :
    (∀ fuel, 3 ≤ fuel →
      DeferredPromise.retry ⟨attemptSupplier p⟩ none fuel 0 = some (3, .success v)) ∧
    (∀ (σ : Type) (supplier : σ → σ × Settle ε α) (fuel : Nat) (s s' : σ) (out : Settle ε α),
      DeferredPromise.retryNoPred supplier fuel s = some (s', out) →
      ∃ w, out = Settle.success w) := by
  constructor
  · intro fuel hf
    obtain ⟨k, rfl⟩ : ∃ k, fuel = k + 3 := ⟨fuel - 3, by omega⟩
    show DeferredPromise.retryNoPred (attemptSupplier p) (k + 2 + 1) 0 = some (3, .success v)
    rw [retryNoPred_succ]
    simp only [attemptSupplier, h0]
    show DeferredPromise.retryNoPred (attemptSupplier p) (k + 1 + 1) 1 = some (3, .success v)
    rw [retryNoPred_succ]
    simp only [attemptSupplier, h1]
    show DeferredPromise.retryNoPred (attemptSupplier p) (k + 1) 2 = some (3, .success v)
    rw [retryNoPred_succ]
    simp only [attemptSupplier, h2]
  · intro σ supplier fuel
    induction fuel with
    | zero =>
      intro s s' out h
      exact absurd h (by simp [DeferredPromise.retryNoPred])
    | succ n ih =>
      intro s s' out h
      rw [retryNoPred_succ] at h
      cases hs : supplier s with
      | mk s2 o =>
        rw [hs] at h
        cases o with
        | success w =>
          simp only [Option.some.injEq, Prod.mk.injEq] at h
          exact ⟨w, h.2.symm⟩
        | failure e => exact ih s2 s' out h

/-- Claim C4: `retry(p)` calls the predicate on each failure with the attempt
count starting at 1 together with the failure value of that attempt; `true`
re-instantiates the Producer and `false` settles the result as failed with the
original failure value — a predicate returning `false` on the second failure
yields a failed result carrying the value of the second failure after exactly 2
attempts; moreover any failed retry result is one the predicate vetoed
(returned `false` on that very failure value). -/
theorem retry_predicate (p : Nat → Settle ε α) (fn : Nat → ε → Bool) (e0 e1 : ε)
    (h0 : p 0 = .failure e0) (h1 : p 1 = .failure e1)
    (hf1 : fn 1 e0 = true) (hf2 : fn 2 e1 = false) :
    (∀ fuel, 2 ≤ fuel →
      DeferredPromise.retry ⟨attemptSupplier p⟩ (some fn) fuel 0 = some (2, .failure e1)) ∧
    (∀ (σ : Type) (supplier : σ → σ × Settle ε α) (fuel tries : Nat) (s s' : σ) (e : ε),
      DeferredPromise.retryPred supplier fn fuel tries s = some (s', .failure e) →
      ∃ k, fn k e = false) := by
  constructor
  · intro fuel hf
    obtain ⟨k, rfl⟩ : ∃ k, fuel = k + 2 := ⟨fuel - 2, by omega⟩
    show DeferredPromise.retryPred (attemptSupplier p) fn (k + 1 + 1) 0 0 = some (2, .failure e1)
    rw [retryPred_succ]
    simp only [attemptSupplier, h0, hf1, if_true]
    show DeferredPromise.retryPred (attemptSupplier p) fn (k + 1) 1 1 = some (2, .failure e1)
    rw [retryPred_succ]
    simp [attemptSupplier, h1, hf2]
  · intro σ supplier fuel
    induction fuel with
    | zero =>
      intro tries s s' e h
      exact absurd h (by simp [DeferredPromise.retryPred])
    | succ n ih =>
      intro tries s s' e h
      rcases hs : supplier s with ⟨s2, o⟩
      cases o with
      | success w =>
        rw [retryPred_success_step supplier fn n tries s s2 w hs] at h
        simp at h
      | failure e2 =>
        rw [retryPred_failure_step supplier fn n tries s s2 e2 hs] at h
        by_cases hc : fn (tries + 1) e2 = true
        · simp only [hc, if_true] at h
          exact ih (tries + 1) s2 s' e h
        · rw [Bool.not_eq_true] at hc
          simp only [hc, Bool.false_eq_true, if_false, Option.some.injEq,
            Prod.mk.injEq, Settle.failure.injEq] at h
          exact ⟨tries + 1, h.2 ▸ hc⟩

/-- Producer pattern for the claim-C3 witness: fails on attempts 0 and 1,
succeeds with 99 from attempt 2 on. -/
def failTwice : Nat → Settle Nat Nat :=
  fun n => if n < 2 then .failure n else .success 99

/-- Witness for claim C3 at a concrete Producer: three attempts, success 99. -/
theorem retry_no_predicate_witness :
    DeferredPromise.retry ⟨attemptSupplier failTwice⟩ none 3 0 =
      some (3, Settle.success 99) :=
  (retry_no_predicate failTwice 99 0 1 (by decide) (by decide) (by decide)).1 3 (by decide)

/-- Producer pattern for the claim-C4 witness: every attempt `n` fails with
`n + 10`. -/
def alwaysFail : Nat → Settle Nat Nat :=
  fun n => Settle.failure (n + 10)

/-- Predicate pattern for the claim-C4 witness: keep retrying only while the
attempt count is below 2. -/
def stopAtTwo : Nat → Nat → Bool :=
  fun k _ => decide (k < 2)

/-- Witness for claim C4 at a concrete Producer and predicate: two attempts,
failed with the second failure value 11. -/
theorem retry_predicate_witness :
    DeferredPromise.retry ⟨attemptSupplier alwaysFail⟩ (some stopAtTwo) 2 0 =
      some (2, Settle.failure 11) :=
  (retry_predicate alwaysFail stopAtTwo 10 11 (by decide) (by decide)
    (by decide) (by decide)).1 2 (by decide)

/-- Claim C2: attaching twice to `DeferredPromise.resolve v` triggers the
success path twice, each delivery yielding `v`; and in general each of the
four attachment operations instantiates the stored supplier exactly once per
call (observed by the invocation counter), so the Producer is re-invoked on
every attachment and never memoized. -/
theorem deferred_attach_reinvokes :
    (∀ (σ ε ε' α β : Type) (v : α) (res : α → Settle ε' β) (rej : ε → Settle ε' β) (s : σ),
      ((DeferredPromise.resolve v : DeferredPromise σ ε α).thenAttach res rej s).2 = res v ∧
      ((DeferredPromise.resolve v : DeferredPromise σ ε α).thenAttach res rej
        ((DeferredPromise.resolve v : DeferredPromise σ ε α).thenAttach res rej s).1).2
        = res v) ∧
    (∀ (σ ε ε' α β : Type) (d : DeferredPromise σ ε α)
      (res : α → Settle ε' β) (rej : ε → Settle ε' β) (s : σ) (n : Nat),
      (d.counted.thenAttach res rej (s, n)).1.2 = n + 1 ∧
      (∀ rej2 : ε → Settle ε α, (d.counted.catchAttach rej2 (s, n)).1.2 = n + 1) ∧
      (∀ (β2 : Type) (r : Settle ε β2),
        (d.counted.finallyAttach (fun sn => (sn, r)) (s, n)).1.2 = n + 1) ∧
      (d.counted.toPromise (s, n)).1.2 = n + 1) := by
  constructor
  · intro σ ε ε' α β v res rej s
    exact ⟨rfl, rfl⟩
  · intro σ ε ε' α β d res rej s n
    refine ⟨?_, ?_, ?_, ?_⟩
    · simp [DeferredPromise.thenAttach, DeferredPromise.counted]
    · intro rej2
      simp [DeferredPromise.catchAttach, DeferredPromise.counted]
    · intro β2 r
      cases hs : d._supplier s with
      | mk s' o =>
        cases o <;> cases r <;>
          simp [DeferredPromise.finallyAttach, DeferredPromise.counted,
            Promise.finallyPoly, hs]
    · simp [DeferredPromise.toPromise, DeferredPromise.counted]

/-- Claim C5: `contains(value, predicate)` on a fulfilled source evaluates the
bipredicate on the resolved value and the sample value (strict equality when
no bipredicate is given), settling success with the boolean result — `true`
when the source resolved the sample value itself, `false` when it resolved a
different value; a rejected source propagates its failure value untouched, for
every choice of bipredicate argument. -/
theorem contains_spec :
    ∀ (α ε : Type) [DecidableEq α] (x value : α) (f : α → α → Bool) (e : ε),
      Promise.contains (Settle.success x : Settle ε α) value (some f) =
        .success (f x value) ∧
      Promise.contains (Settle.success x : Settle ε α) value none =
        .success (decide (x = value)) ∧
      Promise.contains (Settle.success value : Settle ε α) value none = .success true ∧
      (x ≠ value →
        Promise.contains (Settle.success x : Settle ε α) value none = .success false) ∧
      ∀ bp : Option (α → α → Bool),
        Promise.contains (Settle.failure e : Settle ε α) value bp = .failure e := by
  intro α ε inst x value f e
  refine ⟨rfl, rfl, ?_, ?_, ?_⟩
  · simp [Promise.contains, Settle.thenF]
  · intro hne
    simp [Promise.contains, Settle.thenF, hne]
  · intro bp
    cases bp <;> rfl

/-- Witness for claim C5 at concrete inputs: a source resolved with 3 tested
against 5 yields success `false`, a source rejected with 7 stays rejected. -/
theorem contains_spec_witness :
    Promise.contains (Settle.success 3 : Settle Nat Nat) 5 none = Settle.success false ∧
    Promise.contains (Settle.failure 7 : Settle Nat Nat) 5 none = Settle.failure 7 :=
  ⟨(contains_spec Nat Nat 3 5 (fun _ _ => false) 7).2.2.2.1 (by decide),
   (contains_spec Nat Nat 3 5 (fun _ _ => false) 7).2.2.2.2 none⟩

/-- Claim C6: `compare(a, b, cmp)` joins the two sources and settles success
with `cmp` applied to the two resolved values, failing with the failure value
when either source fails; `equals` is `compare` with the strict-equality
comparator; concretely with sources 50 and 25 and the divisibility comparator
the result resolves `true`. -/
theorem compare_equals_spec :
    (∀ (α β γ ε : Type) (va : α) (vb : β) (cmp : α → β → γ),
      Promise.compare (Settle.success va : Settle ε α) (Settle.success vb : Settle ε β) cmp =
        .success (cmp va vb)) ∧
    (∀ (α β γ ε : Type) (e : ε) (b : Settle ε β) (cmp : α → β → γ),
      Promise.compare (Settle.failure e : Settle ε α) b cmp = .failure e) ∧
    (∀ (α β γ ε : Type) (va : α) (e : ε) (cmp : α → β → γ),
      Promise.compare (Settle.success va : Settle ε α) (Settle.failure e : Settle ε β) cmp =
        .failure e) ∧
    (∀ a b : Settle Nat Nat,
      Promise.equals a b = Promise.compare a b (fun x y => decide (x = y))) ∧
    Promise.compare (Settle.success 50 : Settle Nat Nat) (Settle.success 25 : Settle Nat Nat)
      (fun x y => decide (x % y = 0)) = .success true := by
  refine ⟨?_, ?_, ?_, ?_, ?_⟩
  · intro α β γ ε va vb cmp; rfl
  · intro α β γ ε e b cmp; rfl
  · intro α β γ ε va e cmp; rfl
  · intro a b; rfl
  · decide

/-- Claim C7: the promise returned by `timeout(amount)` settles at the
`amount` mark; when the source fulfilled strictly before the mark it settles
success with the original source promise reference itself, otherwise it
settles failure with the timeout error; the rejection branch of the source
never sets the success flag, so an early source failure does not shortcut the
timer. -/
theorem timeout_spec :
    (∀ (ε α : Type) (t : Nat) (v : α) (amount : Nat),
      t < amount →
      Promise.timeout (some (t, Settle.success v) : TimedSource ε α) amount =
        (amount, .success (some (t, Settle.success v)))) ∧
    (∀ (ε α : Type) (source : TimedSource ε α) (amount : Nat),
      (∀ t v, source = some (t, Settle.success v) → amount ≤ t) →
      Promise.timeout source amount = (amount, .failure timeoutMessage)) ∧
    (∀ (ε α : Type) (t : Nat) (e : ε) (amount : Nat),
      timeoutFlag (some (t, Settle.failure e) : TimedSource ε α) amount = false) ∧
    (∀ (ε α : Type) (source : TimedSource ε α) (amount : Nat),
      (Promise.timeout source amount).1 = amount) := by
  refine ⟨?_, ?_, ?_, ?_⟩
  · intro ε α t v amount ht
    simp [Promise.timeout, timeoutFlag, ht]
  · intro ε α source amount hno
    have hflag : timeoutFlag source amount = false := by
      match source with
      | none => rfl
      | some (t, Settle.success v) =>
        have := hno t v rfl
        simp [timeoutFlag]
        omega
      | some (t, Settle.failure e) => rfl
    simp [Promise.timeout, hflag]
  · intro ε α t e amount; rfl
  · intro ε α source amount; rfl

/-- Witness for claim C7 at concrete inputs: a source fulfilled at time 1
observed with a 10 tick timeout settles success at the mark with the source
reference. -/
theorem timeout_spec_witness :
    Promise.timeout (some (1, Settle.success 5) : TimedSource Nat Nat) 10 =
      (10, Settle.success (some (1, Settle.success 5))) :=
  timeout_spec.1 Nat Nat 1 5 10 (by decide)

/-- Claim C10: the promise returned by `timeout(amount)` always settles,
exactly at the `amount` mark, with either the success wrapping of the source
reference or the fixed timeout rejection; a source that fails (at any time)
or never settles yields the rejection carrying the message
`Promise TimeoutException`, and a rejection of the returned promise never
carries anything but that fixed message — the failure value of the source is
never forwarded. -/
theorem timeout_total_spec :
    (∀ (ε α : Type) (source : TimedSource ε α) (amount : Nat),
      (Promise.timeout source amount).1 = amount ∧
      ((Promise.timeout source amount).2 = .success source ∨
        (Promise.timeout source amount).2 = .failure timeoutMessage)) ∧
    (∀ (ε α : Type) (t : Nat) (e : ε) (amount : Nat),
      Promise.timeout (some (t, Settle.failure e) : TimedSource ε α) amount =
        (amount, .failure timeoutMessage)) ∧
    (∀ (ε α : Type) (amount : Nat),
      Promise.timeout (none : TimedSource ε α) amount = (amount, .failure timeoutMessage)) ∧
    (∀ (ε α : Type) (source : TimedSource ε α) (amount : Nat) (msg : String),
      (Promise.timeout source amount).2 = .failure msg → msg = timeoutMessage) := by
  refine ⟨?_, ?_, ?_, ?_⟩
  · intro ε α source amount
    refine ⟨rfl, ?_⟩
    cases h : timeoutFlag source amount <;> simp [Promise.timeout, h]
  · intro ε α t e amount
    simp [Promise.timeout, timeoutFlag]
  · intro ε α amount; rfl
  · intro ε α source amount msg h
    cases hf : timeoutFlag source amount <;> rw [Promise.timeout] at h <;> simp [hf] at h
    exact h.symm

/-- Witness for claim C10 at concrete inputs: a source that failed at time 3
yields at the 5 tick mark the rejection with the fixed timeout message. -/
theorem timeout_total_spec_witness :
    Promise.timeout (some (3, Settle.failure 9) : TimedSource Nat Nat) 5 =
      (5, Settle.failure timeoutMessage) ∧
    "Promise TimeoutException" = timeoutMessage :=
  ⟨timeout_total_spec.2.1 Nat Nat 3 9 5,
   timeout_total_spec.2.2.2 Nat Nat (some (3, Settle.failure 9)) 5
     "Promise TimeoutException" rfl⟩

/-- Claim C8: the `finally` polyfill invokes the finalizer exactly once on a
settled source (its state effect is exactly one call, and a counting finalizer
counts one invocation); when the finalizer returns normally (any value), a
fulfilled source keeps its original value and a rejected source keeps its
original error; when the finalizer throws or its awaited result rejects, that
exception replaces the original outcome. -/
theorem finally_spec :
    (∀ (σ ε α β : Type) (p : Settle ε α) (fin : σ → σ × Settle ε β) (s : σ),
      (Promise.finallyPoly p fin s).1 = (fin s).1) ∧
    (∀ (ε α β : Type) (p : Settle ε α) (r : Settle ε β) (n : Nat),
      (Promise.finallyPoly p (fun m : Nat => (m + 1, r)) n).1 = n + 1) ∧
    (∀ (σ ε α β : Type) (v : α) (fin : σ → σ × Settle ε β) (s : σ) (b : β),
      (fin s).2 = .success b →
      (Promise.finallyPoly (Settle.success v) fin s).2 = .success v) ∧
    (∀ (σ ε α β : Type) (err : ε) (fin : σ → σ × Settle ε β) (s : σ) (b : β),
      (fin s).2 = .success b →
      (Promise.finallyPoly (Settle.failure err : Settle ε α) fin s).2 = .failure err) ∧
    (∀ (σ ε α β : Type) (p : Settle ε α) (fin : σ → σ × Settle ε β) (s : σ) (e2 : ε),
      (fin s).2 = .failure e2 →
      (Promise.finallyPoly p fin s).2 = .failure e2) := by
  refine ⟨?_, ?_, ?_, ?_, ?_⟩
  · intro σ ε α β p fin s
    cases p <;> rcases hf : fin s with ⟨s', r⟩ <;> simp [Promise.finallyPoly, hf]
  · intro ε α β p r n
    cases p <;> simp [Promise.finallyPoly]
  · intro σ ε α β v fin s b h
    rcases hf : fin s with ⟨s', r⟩
    rw [hf] at h
    simp only at h
    subst h
    simp [Promise.finallyPoly, hf]
  · intro σ ε α β err fin s b h
    rcases hf : fin s with ⟨s', r⟩
    rw [hf] at h
    simp only at h
    subst h
    simp [Promise.finallyPoly, hf]
  · intro σ ε α β p fin s e2 h
    rcases hf : fin s with ⟨s', r⟩
    rw [hf] at h
    simp only at h
    subst h
    cases p <;> simp [Promise.finallyPoly, hf]

/-- Witness for claim C8 at concrete inputs: a source rejected with 7 keeps
its rejection through a counting finalizer that returns normally. -/
theorem finally_spec_witness :
    (Promise.finallyPoly (Settle.failure 7 : Settle Nat Nat)
      (fun n : Nat => (n + 1, Settle.success (0 : Nat))) 0).2 = Settle.failure 7 :=
  finally_spec.2.2.2.1 Nat Nat Nat Nat 7 (fun n => (n + 1, Settle.success 0)) 0 0 rfl

/-- Claim C9: on a fresh PublishedPromise, `resolve(v)` settles the single
underlying promise with `v` and an attached continuation is delivered `v`
(exactly once, by the at-most-once cell); once settled, any further `resolve`
or `reject` call leaves the settlement unchanged; and with a producer supplied
at construction, the trigger calls of the producer run first, so the first
settlement among producer calls and external calls wins. -/
theorem published_spec :
    (∀ (ε α : Type) (v : α),
      ((PublishedPromise.construct ([] : List (SettleAction ε α))).resolve v)._promise =
        some (.success v)) ∧
    (∀ (ε ε' α β : Type) (v : α) (res : α → Settle ε' β) (rej : ε → Settle ε' β),
      ((PublishedPromise.construct ([] : List (SettleAction ε α))).resolve v).thenAttach
        res rej = some (res v)) ∧
    (∀ (ε α : Type) (p : PublishedPromise ε α) (st : Settle ε α),
      p._promise = some st →
      (∀ v, (p.resolve v)._promise = some st) ∧
      (∀ e, (p.reject e)._promise = some st)) ∧
    (∀ (ε α : Type) (prodCalls extCalls : List (SettleAction ε α)),
      extCalls.foldl applyAction (PublishedPromise.construct prodCalls)._promise =
        match runActions prodCalls with
        | some st => some st
        | none => runActions extCalls) := by
  refine ⟨?_, ?_, ?_, ?_⟩
  · intro ε α v; rfl
  · intro ε ε' α β v res rej; rfl
  · intro ε α p st h
    constructor
    · intro v
      simp [PublishedPromise.resolve, applyAction, h]
    · intro e
      simp [PublishedPromise.reject, applyAction, h]
  · intro ε α prodCalls extCalls
    show extCalls.foldl applyAction (runActions prodCalls) = _
    cases h : runActions prodCalls with
    | none => rfl
    | some st => exact foldl_applyAction_settled st extCalls

/-- Witness for claim C9 at concrete inputs: after resolving a fresh
PublishedPromise with 4, a later resolve of 9 and a later reject of 1 both
leave the settlement at success 4. -/
theorem published_spec_witness :
    ((((PublishedPromise.construct ([] : List (SettleAction Nat Nat))).resolve 4).resolve
      9))._promise = some (Settle.success 4) ∧
    (((PublishedPromise.construct ([] : List (SettleAction Nat Nat))).resolve 4).reject
      1)._promise = some (Settle.success 4) :=
  ⟨(published_spec.2.2.1 Nat Nat ((PublishedPromise.construct []).resolve 4)
      (Settle.success 4) rfl).1 9,
   (published_spec.2.2.1 Nat Nat ((PublishedPromise.construct []).resolve 4)
      (Settle.success 4) rfl).2 1⟩

end Px
